import Mathlib

/-!
Verification of the vboot firmware-image signing engine.

The BIOS signing pipeline is translated from src/futility/cmd_sign.c
(handlers fmap_fw_main and fmap_fw_preamble, the final step
sign_bios_at_end with its helper write_new_preamble, and the traversal
ft_sign_bios).  The kernel resign path is translated from
ft_sign_kern_preamble in the same file.  The developer-firmware
conversion steps are translated from
src/scripts/image_signing/make_dev_firmware.sh.

Bytes are modelled as Nat and a mapped image as a list of bytes.
Cryptographic primitives, wire formats and FMAP lookup live outside
src/ and are modelled from the spec where noted.
-/

abbrev Byte := Nat

abbrev Image := List Byte

/-- Read `len` bytes of the image starting at `off` (a `(buf, len)` slice). -/
def imgSlice (img : Image) (off len : Nat) : List Byte :=
  (img.drop off).take len

/-- Model of memcpy into the mapped image: write `src` starting at `off`,
one byte at a time; bytes beyond the end of the mapping are dropped. -/
def writeBytes : Image → Nat → List Byte → Image
  | img, _, [] => img
  | img, off, b :: bs => writeBytes (img.set off b) (off + 1) bs

/-- Modelled from the spec (section 4.1): a loaded private key
(VbPrivateKey, host-side key loading is not under src/), reduced to an
abstract identity; claims only depend on which key is used. -/
structure PrivKey where
  id : Nat
deriving DecidableEq

/-- Modelled from the spec (section 3 "Keyblock"): a loaded keyblock
(VbKeyBlockHeader, read by KeyBlockRead which is not under src/) in its
serialized form; `key_block_size` is the length of `bytes`. -/
structure KeyBlockFile where
  bytes : List Byte
deriving DecidableEq

def KeyBlockFile.key_block_size (kb : KeyBlockFile) : Nat :=
  kb.bytes.length

/-- A body signature (VbSignature): `data_size` records how many bytes the
signature covers. -/
structure VbSignature where
  data_size : Nat
  sig_data : List Byte
deriving DecidableEq

/-- Modelled from the spec (glossary "Body signature"): the raw signature
bytes are an abstract function of the signed data and the key; the model
uses a simple fixed-width digest. -/
def modelSigBytes (data : List Byte) (key : PrivKey) : List Byte :=
  [key.id + data.foldl (fun a b => a * 257 + b + 1) 7]

/-- Modelled from the spec (section 4.1, glossary "Body signature"):
CalculateSignature (host library, not under src/) signs exactly the given
byte range, so `data_size` is the length of the data. -/
def CalculateSignature (data : List Byte) (key : PrivKey) : VbSignature :=
  { data_size := data.length, sig_data := modelSigBytes data key }

/-- A firmware preamble (VbFirmwarePreambleHeader): version, kernel
subkey, body signature and flags.  The trailing self-signature by the
data key is not needed by any claim and is omitted from the model. -/
structure VbFirmwarePreamble where
  firmware_version : Nat
  kernel_subkey : Nat
  body_signature : VbSignature
  flags : Nat
deriving DecidableEq

/-- Modelled from the spec (section 4.3): CreateFirmwarePreamble (host
library, not under src/) assembles the preamble from version, subkey,
body signature and flags, signed by the data key. -/
def CreateFirmwarePreamble (version subkey : Nat) (sig : VbSignature)
    (_key : PrivKey) (flags : Nat) : VbFirmwarePreamble :=
  { firmware_version := version, kernel_subkey := subkey,
    body_signature := sig, flags := flags }

/-- Modelled from the spec (section 6 "Wire/format compatibility"): the
serialized preamble; the exact bit layout is not redefined here, only
that it is a function of the preamble fields. -/
def preambleBytes (p : VbFirmwarePreamble) : List Byte :=
  [p.firmware_version, p.flags, p.kernel_subkey, p.body_signature.data_size]
    ++ p.body_signature.sig_data

/-- The parsed CLI option record of cmd_sign.c (struct local_data_s),
restricted to the fields the BIOS sign path reads.  `signprivate`,
`keyblock` and `kernel_subkey` are checked present by do_sign before a
BIOS image is signed; the developer identity is optional.  Handlers only
ever mutate `flags`, which is threaded explicitly. -/
structure Options where
  signprivate : PrivKey
  keyblock : KeyBlockFile
  kernel_subkey : Nat
  devsignprivate : Option PrivKey
  devkeyblock : Option KeyBlockFile
  version : Nat
  flags : Nat
  flags_specified : Bool
deriving DecidableEq

/-- One FMAP area as recorded in the sign state (struct bios_area_s):
offset and length of the slice, plus the is_valid mark. -/
structure AreaSt where
  off : Nat
  len : Nat
  is_valid : Bool
deriving DecidableEq

def AreaSt.init : AreaSt := ⟨0, 0, false⟩

/-- The sign state gathered while walking the FMAP
(struct sign_state_s, one bios_area_s per BIOS component). -/
structure SignState where
  gbb : AreaSt
  fw_main_a : AreaSt
  fw_main_b : AreaSt
  vblock_a : AreaSt
  vblock_b : AreaSt
deriving DecidableEq

/-- Error causes of the BIOS sign path.  The C code returns 1 in each
case after printing a distinct message; the constructors name the
message printed. -/
inductive SErr where
  /-- fmap_fw_preamble: "%s says the firmware is larger than we have". -/
  | FwLarger (slotA : Bool)
  /-- sign_bios_at_end refuses to change anything: not all areas valid. -/
  | NotAllValid
  /-- sign_bios_at_end: "FW A & B differ. DEV keys are required.". -/
  | DevKeysRequired
deriving DecidableEq

/-- The data fmap_fw_preamble reads out of an existing vblock once the
keyblock verifies: key_block_size, the preamble body signature
data_size, and the preamble flags. -/
structure OldVblock where
  key_block_size : Nat
  fw_size : Nat
  flags : Nat
deriving DecidableEq

/-- Modelled from the spec (sections 3 and 4.2): KeyBlockVerify,
PublicKeyToRSA and the preamble layout are not under src/.  A parse
function returns the fields read from an existing vblock area when its
keyblock verifies and its public key converts, and none otherwise. -/
abbrev ParseFn := List Byte → Option OldVblock

/-- fw_body_area selection in fmap_fw_preamble: VBLOCK_A pairs with
FW_MAIN_A, VBLOCK_B with FW_MAIN_B. -/
def fwAreaOf (isA : Bool) (st : SignState) : AreaSt :=
  if isA then st.fw_main_a else st.fw_main_b

def markVblockValid (isA : Bool) (st : SignState) : SignState :=
  if isA then { st with vblock_a := { st.vblock_a with is_valid := true } }
  else { st with vblock_b := { st.vblock_b with is_valid := true } }

def setFwLen (isA : Bool) (n : Nat) (st : SignState) : SignState :=
  if isA then { st with fw_main_a := { st.fw_main_a with len := n } }
  else { st with fw_main_b := { st.fw_main_b with len := n } }

/-- Translated from fmap_fw_preamble (src/futility/cmd_sign.c lines
173-230).  On parse failure the whole FW region will be signed and the
area is still marked valid.  On success, VBLOCK_A preserves the old
preamble flags when the caller gave none; then the declared body size is
checked against the FW_MAIN area and, if it fits, that area is shrunk.
An oversized body size returns the error without marking the area
valid.  Returns (errors, new state, new option.flags). -/
def fmap_fw_preamble (parse : ParseFn) (isA : Bool) (vbuf : List Byte)
    (st : SignState) (flags_specified : Bool) (flags : Nat) :
    List SErr × SignState × Nat :=
  match parse vbuf with
  | none => ([], markVblockValid isA st, flags)
  | some ov =>
      if (fwAreaOf isA st).len < ov.fw_size then
        ([SErr.FwLarger isA], st,
         if isA && !flags_specified then ov.flags else flags)
      else
        ([], markVblockValid isA (setFwLen isA ov.fw_size st),
         if isA && !flags_specified then ov.flags else flags)

/-- Translated from fmap_fw_main (src/futility/cmd_sign.c lines
159-165): the FW_MAIN handler only marks the area valid. -/
def fmap_fw_main (isA : Bool) (st : SignState) : SignState :=
  if isA then { st with fw_main_a := { st.fw_main_a with is_valid := true } }
  else { st with fw_main_b := { st.fw_main_b with is_valid := true } }

/-- The FMAP directory entries of interest, as (offset, size) pairs
before clamping; none when the area name is absent.  The FMAP parser
itself (fmap.c) is not under src/. -/
structure Layout where
  gbb : Option (Nat × Nat)
  fw_main_a : Option (Nat × Nat)
  fw_main_b : Option (Nat × Nat)
  vblock_a : Option (Nat × Nat)
  vblock_b : Option (Nat × Nat)
deriving DecidableEq

/-- Modelled from the spec (section 4.4): fmap_limit_area (fmap.c, not
under src/) truncates an area so that offset + length stays within the
file; an area starting at or past the end is absent. -/
def fmap_limit_area (L off size : Nat) : Option (Nat × Nat) :=
  if L ≤ off then none else some (off, min size (L - off))

/-- Clamp one optional FMAP entry to the image length. -/
def clampOf (L : Nat) (e : Option (Nat × Nat)) : Option (Nat × Nat) :=
  match e with
  | none => none
  | some (o, s) => fmap_limit_area L o s

/-- Translated from the FMAP walk in ft_sign_bios (src/futility
/cmd_sign.c lines 526-567): areas are visited in component order GBB,
FW_MAIN_A, FW_MAIN_B, VBLOCK_A, VBLOCK_B; a found area is clamped and
recorded, then its handler runs (GBB has none); handler errors are
accumulated and the walk continues.  Returns (errors, state, the final
option.flags). -/
def traverseBios (parse : ParseFn) (opt : Options) (lay : Layout)
    (img : Image) : List SErr × SignState × Nat :=
  let L := img.length
  let st0 : SignState :=
    ⟨AreaSt.init, AreaSt.init, AreaSt.init, AreaSt.init, AreaSt.init⟩
  let st1 := match clampOf L lay.gbb with
    | some (o, s) => { st0 with gbb := ⟨o, s, false⟩ }
    | none => st0
  let st2 := match clampOf L lay.fw_main_a with
    | some (o, s) => fmap_fw_main true { st1 with fw_main_a := ⟨o, s, false⟩ }
    | none => st1
  let st3 := match clampOf L lay.fw_main_b with
    | some (o, s) => fmap_fw_main false { st2 with fw_main_b := ⟨o, s, false⟩ }
    | none => st2
  let r4 := match clampOf L lay.vblock_a with
    | some (o, s) =>
        fmap_fw_preamble parse true (imgSlice img o s)
          { st3 with vblock_a := ⟨o, s, false⟩ } opt.flags_specified opt.flags
    | none => ([], st3, opt.flags)
  let r5 := match clampOf L lay.vblock_b with
    | some (o, s) =>
        fmap_fw_preamble parse false (imgSlice img o s)
          { r4.2.1 with vblock_b := ⟨o, s, false⟩ } opt.flags_specified r4.2.2
    | none => ([], r4.2.1, r4.2.2)
  (r4.1 ++ r5.1, r5.2.1, r5.2.2)

/-- The body signature write_new_preamble computes: it covers the
current FW_MAIN slice, whose length may have been shrunk. -/
def newBodySig (img : Image) (fw : AreaSt) (key : PrivKey) : VbSignature :=
  CalculateSignature (imgSlice img fw.off fw.len) key

/-- The preamble write_new_preamble builds from the option record and
the freshly computed body signature. -/
def newFwPreamble (img : Image) (fw : AreaSt) (key : PrivKey)
    (opt : Options) : VbFirmwarePreamble :=
  CreateFirmwarePreamble opt.version opt.kernel_subkey
    (newBodySig img fw key) key opt.flags

/-- Translated from write_new_preamble (src/futility/cmd_sign.c lines
405-440): compute the body signature over the FW_MAIN slice, build the
preamble, then copy the keyblock to offset 0 of the vblock area and the
preamble right after it.  The copies are not bounded by the vblock
area length, exactly as the two memcpy calls are not. -/
def write_new_preamble (img : Image) (vb fw : AreaSt) (signkey : PrivKey)
    (kb : KeyBlockFile) (opt : Options) : Image :=
  writeBytes (writeBytes img vb.off kb.bytes)
    (vb.off + kb.bytes.length)
    (preambleBytes (newFwPreamble img fw signkey opt))

/-- Whether image position `i` lies inside an FMAP area. -/
def inArea (a : AreaSt) (i : Nat) : Bool :=
  decide (a.off ≤ i) && decide (i < a.off + a.len)

/-- The all-four-areas check at the top of sign_bios_at_end. -/
def allValid (st : SignState) : Bool :=
  st.vblock_a.is_valid && st.vblock_b.is_valid &&
  st.fw_main_a.is_valid && st.fw_main_b.is_valid

/-- The A/B divergence test of sign_bios_at_end: lengths differ, or the
two FW_MAIN slices differ byte-wise. -/
def divergent (img : Image) (st : SignState) : Bool :=
  (st.fw_main_a.len != st.fw_main_b.len) ||
  (imgSlice img st.fw_main_a.off st.fw_main_a.len
     != imgSlice img st.fw_main_b.off st.fw_main_b.len)

/-- Translated from sign_bios_at_end (src/futility/cmd_sign.c lines
477-523): require all four areas valid; if the FW slices diverge,
require the developer identity and sign slot A with it; slot B is
always signed with the normal identity.  The LOEM sidecars are separate
output files, not image bytes, and are omitted. -/
def sign_bios_at_end (opt : Options) (st : SignState) (img : Image) :
    List SErr × Image :=
  if allValid st then
    if divergent img st then
      match opt.devsignprivate, opt.devkeyblock with
      | some dpriv, some dkb =>
          let img1 := write_new_preamble img st.vblock_a st.fw_main_a dpriv dkb opt
          ([], write_new_preamble img1 st.vblock_b st.fw_main_b
                 opt.signprivate opt.keyblock opt)
      | _, _ => ([SErr.DevKeysRequired], img)
    else
      let img1 := write_new_preamble img st.vblock_a st.fw_main_a
                    opt.signprivate opt.keyblock opt
      ([], write_new_preamble img1 st.vblock_b st.fw_main_b
             opt.signprivate opt.keyblock opt)
  else ([SErr.NotAllValid], img)

/-- Translated from ft_sign_bios (src/futility/cmd_sign.c lines
526-572): walk the FMAP, then sign at the end; errors accumulate.  The
returned option record carries the possibly preserved flags. -/
def ft_sign_bios (parse : ParseFn) (opt : Options) (lay : Layout)
    (img : Image) : List SErr × Image × Options :=
  let t := traverseBios parse opt lay img
  let opt2 := { opt with flags := t.2.2 }
  let r := sign_bios_at_end opt2 t.2.1 img
  (t.1 ++ r.1, r.2, opt2)

/-- Which vblock a write event targets. -/
inductive Slot where
  | A
  | B
deriving DecidableEq, BEq

/-- One memcpy into the image during sign_bios_at_end: the slot whose
vblock area the destination was taken from, the destination offset, and
the bytes written. -/
structure WEvent where
  slot : Slot
  off : Nat
  data : List Byte
deriving DecidableEq

def applyEvents (img : Image) : List WEvent → Image
  | [] => img
  | e :: es => applyEvents (writeBytes img e.off e.data) es

/-- The two memcpy events of one write_new_preamble call, in program
order: keyblock first, preamble right after it. -/
def write_new_preamble_events (s : Slot) (img : Image) (vb fw : AreaSt)
    (signkey : PrivKey) (kb : KeyBlockFile) (opt : Options) : List WEvent :=
  [⟨s, vb.off, kb.bytes⟩,
   ⟨s, vb.off + kb.bytes.length,
      preambleBytes (newFwPreamble img fw signkey opt)⟩]

/-- The ordered trace of image writes performed by sign_bios_at_end,
mirroring its branches: nothing on the error paths, otherwise the slot A
events followed by the slot B events (B signatures read the image after
the A writes, as the C code does through the shared mapping). -/
def sign_bios_at_end_events (opt : Options) (st : SignState)
    (img : Image) : List WEvent :=
  if allValid st then
    if divergent img st then
      match opt.devsignprivate, opt.devkeyblock with
      | some dpriv, some dkb =>
          let evA := write_new_preamble_events Slot.A img st.vblock_a
                       st.fw_main_a dpriv dkb opt
          let img1 := applyEvents img evA
          evA ++ write_new_preamble_events Slot.B img1 st.vblock_b
                   st.fw_main_b opt.signprivate opt.keyblock opt
      | _, _ => []
    else
      let evA := write_new_preamble_events Slot.A img st.vblock_a
                   st.fw_main_a opt.signprivate opt.keyblock opt
      let img1 := applyEvents img evA
      evA ++ write_new_preamble_events Slot.B img1 st.vblock_b
               st.fw_main_b opt.signprivate opt.keyblock opt
  else []

/-- A kernel preamble (VbKernelPreambleHeader) as read from an existing
partition: load address, version, flags, and whether the (older,
optional) flags field is present (VbKernelHasFlags). -/
structure VbKernelPreamble where
  body_load_address : Nat
  kernel_version : Nat
  flags : Nat
  has_flags : Bool
deriving DecidableEq

/-- Modelled from the spec (section 4.7): UnpackKPart (vb1_helper.c, not
under src/) locates the keyblock, the preamble and the kernel blob
inside an existing partition; the partition is modelled as that parsed
view. -/
structure KernPart where
  keyblock : KeyBlockFile
  preamble : VbKernelPreamble
  kblob : List Byte
deriving DecidableEq

/-- The option fields the kernel resign path reads. -/
structure KOptions where
  signprivate : PrivKey
  keyblock : Option KeyBlockFile
  version : Nat
  version_specified : Bool
  flags : Nat
  flags_specified : Bool
  kloadaddr : Nat
  padding : Nat
  config_data : Option (List Byte)
deriving DecidableEq

/-- A freshly signed kernel vblock: keyblock, new preamble, body
signature. -/
structure KVblock where
  keyblock : KeyBlockFile
  preamble : VbKernelPreamble
  body_sig : VbSignature
deriving DecidableEq

/-- Modelled from the spec (sections 4.3 and 4.7): SignKernelBlob
(vb1_helper.c, not under src/) signs the blob and assembles the new
vblock; the new preamble records the version, load address and flags it
was given. -/
def SignKernelBlob (kblob : List Byte) (_padding version kloadaddr : Nat)
    (kb : KeyBlockFile) (key : PrivKey) (flags : Nat) : KVblock :=
  { keyblock := kb,
    preamble := { body_load_address := kloadaddr, kernel_version := version,
                  flags := flags, has_flags := true },
    body_sig := CalculateSignature kblob key }

/-- Translated from ft_sign_kern_preamble (src/futility/cmd_sign.c lines
284-367): option.kloadaddr is overwritten with the existing preamble
load address (deliberate bug-compatibility), the config is replaced when
given (UpdateKernelBlobConfig is not under src/ and is passed in as an
abstract update), version and flags inherit from the existing preamble
unless specified, the keyblock is replaced when given, and the blob is
re-signed.  Returns the new vblock and the mutated option record. -/
def ft_sign_kern_preamble (updateConfig : List Byte → List Byte → List Byte)
    (opt : KOptions) (P : KernPart) : KVblock × KOptions :=
  let kloadaddr := P.preamble.body_load_address
  let kblob := match opt.config_data with
    | some c => updateConfig P.kblob c
    | none => P.kblob
  let version := if opt.version_specified then opt.version
                 else P.preamble.kernel_version
  let flags := if P.preamble.has_flags && !opt.flags_specified
               then P.preamble.flags else opt.flags
  let keyblock := match opt.keyblock with
    | some kb => kb
    | none => P.keyblock
  let vb := SignKernelBlob kblob opt.padding version kloadaddr keyblock
              opt.signprivate flags
  (vb, { opt with kloadaddr := kloadaddr, version := version, flags := flags })

/-- Observable steps of the version-policy stretch of
make_dev_firmware.sh main. -/
inductive DevFwStep where
  /-- The anti-rollback warning printed to the diagnostic stream. -/
  | warnRollback
  /-- The "Signing with Data Key Version ..." message. -/
  | announceSigning
  /-- The invocation of resign_firmwarefd.sh. -/
  | resignFirmware
deriving DecidableEq, BEq

/-- Translated from src/scripts/image_signing/make_dev_firmware.sh lines
226-264: when the platform data-key version is greater than the data-key
version of the new keyblock, a warning is written to the diagnostic
stream; the script then announces and performs the resign in every
case (the comparison never aborts). -/
def make_dev_firmware_rollback_steps
    (data_key_version new_data_key_version : Int) : List DevFwStep :=
  (if data_key_version > new_data_key_version
   then [DevFwStep.warnRollback] else [])
  ++ [DevFwStep.announceSigning, DevFwStep.resignFirmware]

/-- Translated from src/scripts/image_signing/make_dev_firmware.sh line
290: the new GBB flags word is the old one with
GBB_FLAG_FORCE_DEV_BOOT_USB and GBB_FLAG_DISABLE_FW_ROLLBACK_CHECK
(0x30) set. -/
def new_gbb_flags (old_gbb_flags : Nat) : Nat :=
  old_gbb_flags ||| 0x30

/-- The shell pattern " DEV" used by echo_dev_hwid. -/
def devSuffix : List Char := [' ', 'D', 'E', 'V']

/-- Translated from echo_dev_hwid (src/scripts/image_signing
/make_dev_firmware.sh lines 103-116): strip one trailing " DEV" when
present, then append " DEV". -/
def echo_dev_hwid (s : List Char) : List Char :=
  (if devSuffix <:+ s then s.take (s.length - devSuffix.length) else s)
  ++ devSuffix

/-- A parse function for which no existing keyblock ever verifies. -/
def parseNoneFn : ParseFn := fun _ => none

/-- A parse function recognising the two-byte vblock [7, 7] as an
existing vblock whose preamble declares body size 2 and flags 5. -/
def parseKB77 : ParseFn := fun b =>
  if b = [7, 7] then some ⟨1, 2, 5⟩ else none

/-- A six-byte keyblock used as the normal identity in examples. -/
def kbNorm : KeyBlockFile := ⟨[9, 9, 9, 9, 9, 9]⟩

/-- A one-byte keyblock used as the developer identity in examples. -/
def kbDev : KeyBlockFile := ⟨[8]⟩

/-- A one-byte keyblock used as the normal identity in examples. -/
def kbTiny : KeyBlockFile := ⟨[9]⟩

/-- Options without a developer identity. -/
def optPlain : Options := ⟨⟨0⟩, kbNorm, 0, none, none, 1, 0, false⟩

/-- Options with a developer identity. -/
def optDev : Options := ⟨⟨0⟩, kbNorm, 0, some ⟨5⟩, some kbDev, 1, 0, false⟩

/-- Options without a developer identity and a one-byte keyblock. -/
def optTiny : Options := ⟨⟨0⟩, kbTiny, 0, none, none, 1, 0, false⟩

/-- A layout with two-byte FW and vblock areas. -/
def layAB : Layout :=
  ⟨none, some (0, 2), some (2, 2), some (4, 2), some (6, 2)⟩

/-- An eight-byte image whose FW_MAIN slices [1, 2] and [3, 4] differ. -/
def imgDiff : Image := [1, 2, 3, 4, 0, 0, 0, 0]

/-- A layout whose VBLOCK_A area (4 bytes) is smaller than the normal
keyblock plus preamble. -/
def layC3 : Layout :=
  ⟨none, some (0, 2), some (2, 2), some (4, 4), some (12, 4)⟩

/-- A sixteen-byte all-zero image. -/
def imgZero16 : Image := List.replicate 16 0

/-- A layout whose VBLOCK_B area holds the recognised old vblock. -/
def layC5 : Layout :=
  ⟨none, some (0, 2), some (2, 2), some (4, 4), some (8, 2)⟩

/-- An image where only VBLOCK_B parses (bytes [7, 7] at offset 8) and
the FW slices agree. -/
def imgC5 : Image := [3, 3, 3, 3, 1, 1, 1, 1, 7, 7, 0, 0, 0, 0, 0, 0]

/-- A layout whose VBLOCK_A area holds the recognised old vblock. -/
def layW5 : Layout :=
  ⟨none, some (0, 2), some (2, 2), some (6, 2), some (8, 2)⟩

/-- An image where VBLOCK_A parses (bytes [7, 7] at offset 6). -/
def imgW5 : Image := [3, 3, 3, 3, 0, 0, 7, 7, 0, 0]

/-- A sign state with a three-byte FW_MAIN_A area. -/
def stC2 : SignState :=
  ⟨AreaSt.init, ⟨0, 3, true⟩, AreaSt.init, ⟨4, 4, false⟩, AreaSt.init⟩

/-- A four-byte image for the shrink example. -/
def imgC2 : Image := [10, 20, 30, 40]

/-- A sign state with all four areas valid and divergent FW slices in
imgDiff. -/
def stW4 : SignState :=
  ⟨AreaSt.init, ⟨0, 2, true⟩, ⟨2, 2, true⟩, ⟨4, 2, true⟩, ⟨6, 2, true⟩⟩

theorem length_writeBytes (img : Image) (off : Nat) (src : List Byte) :
    (writeBytes img off src).length = img.length := by
  induction src generalizing img off with
  | nil => rfl
  | cons b bs ih => simp [writeBytes, ih, List.length_set]

theorem getD_writeBytes_outside (img : Image) (off : Nat) (src : List Byte)
    (i : Nat) (h : i < off ∨ off + src.length ≤ i) :
    (writeBytes img off src).getD i 0 = img.getD i 0 := by
  induction src generalizing img off with
  | nil => rfl
  | cons b bs ih =>
    have hlen : (b :: bs).length = bs.length + 1 := rfl
    have hne : off ≠ i := by omega
    have h2 : i < off + 1 ∨ (off + 1) + bs.length ≤ i := by omega
    rw [writeBytes, ih (img.set off b) (off + 1) h2,
        List.getD_eq_getElem?_getD, List.getD_eq_getElem?_getD,
        List.getElem?_set_ne hne]

theorem length_imgSlice (img : Image) (off len : Nat) :
    (imgSlice img off len).length = min len (img.length - off) := by
  simp [imgSlice]

theorem length_preambleBytes_newFwPreamble (img : Image) (fw : AreaSt)
    (key : PrivKey) (opt : Options) :
    (preambleBytes (newFwPreamble img fw key opt)).length = 5 := by
  simp [preambleBytes, newFwPreamble, CreateFirmwarePreamble, newBodySig,
        CalculateSignature, modelSigBytes]

theorem fwAreaOf_markVblockValid (isA : Bool) (st : SignState) :
    fwAreaOf isA (markVblockValid isA st) = fwAreaOf isA st := by
  cases isA <;> simp [fwAreaOf, markVblockValid]

theorem fwAreaOf_setFwLen (isA : Bool) (n : Nat) (st : SignState) :
    fwAreaOf isA (setFwLen isA n st) = { fwAreaOf isA st with len := n } := by
  cases isA <;> simp [fwAreaOf, setFwLen]

/-- C6: resigning an existing kernel partition never changes the body
load address: the new preamble (and the mutated option record) carry the
load address of the existing preamble, whatever value --kloadaddr had. -/
theorem C6_kloadaddr_preserved
    (updateConfig : List Byte → List Byte → List Byte)
    (opt : KOptions) (P : KernPart) :
    ((ft_sign_kern_preamble updateConfig opt P).1).preamble.body_load_address
      = P.preamble.body_load_address ∧
    ((ft_sign_kern_preamble updateConfig opt P).2).kloadaddr
      = P.preamble.body_load_address := by
  constructor <;> rfl

/-- C7: the version policy of make_dev_firmware.sh always reaches the
resign step, and the rollback warning is emitted exactly when the
platform data-key version exceeds the new data-key version. -/
theorem C7_rollback_policy (p k : Int) :
    (make_dev_firmware_rollback_steps p k).contains DevFwStep.resignFirmware
      = true ∧
    (make_dev_firmware_rollback_steps p k).contains DevFwStep.warnRollback
      = decide (p > k) := by
  unfold make_dev_firmware_rollback_steps
  by_cases h : p > k
  · rw [if_pos h]
    simp only [decide_eq_true h]
    decide
  · rw [if_neg h]
    simp only [decide_eq_false h]
    decide

/-- C9: the dev-firmware conversion sets the new GBB flags to the old
flags OR 0x30, so every previously set bit stays set and bits 0x10 and
0x20 are set afterwards. -/
theorem C9_gbb_flags_monotone (old : Nat) :
    new_gbb_flags old = old ||| 48 ∧
    old &&& new_gbb_flags old = old ∧
    (new_gbb_flags old).testBit 4 = true ∧
    (new_gbb_flags old).testBit 5 = true := by
  refine ⟨rfl, ?_, ?_, ?_⟩
  · apply Nat.eq_of_testBit_eq
    intro i
    unfold new_gbb_flags
    rw [Nat.testBit_and, Nat.testBit_or]
    cases h : old.testBit i <;> simp [h]
  · unfold new_gbb_flags
    rw [Nat.testBit_or]
    have h48 : (48 : Nat).testBit 4 = true := by decide
    simp [h48]
  · unfold new_gbb_flags
    rw [Nat.testBit_or]
    have h48 : (48 : Nat).testBit 5 = true := by decide
    simp [h48]

/-- C10: echo_dev_hwid always produces a hardware id ending in " DEV"
and is idempotent: an id that already ends in " DEV" has that suffix
stripped before the single " DEV" is appended. -/
theorem C10_dev_hwid_suffix_idem (s : List Char) :
    devSuffix <:+ echo_dev_hwid s ∧
    echo_dev_hwid (echo_dev_hwid s) = echo_dev_hwid s := by
  have key : ∀ x : List Char, echo_dev_hwid (x ++ devSuffix) = x ++ devSuffix := by
    intro x
    unfold echo_dev_hwid
    rw [if_pos (List.suffix_append x devSuffix)]
    have hlen : (x ++ devSuffix).length - devSuffix.length = x.length := by
      simp
    rw [hlen, List.take_left]
  exact ⟨List.suffix_append _ devSuffix,
    key (if devSuffix <:+ s then s.take (s.length - devSuffix.length) else s)⟩

theorem applyEvents_append (img : Image) (xs ys : List WEvent) :
    applyEvents img (xs ++ ys) = applyEvents (applyEvents img xs) ys := by
  induction xs generalizing img with
  | nil => rfl
  | cons e es ih => simp [applyEvents, ih]

theorem sign_bios_at_end_nodev (opt : Options) (st : SignState) (img : Image)
    (hv : allValid st = true) (hd : divergent img st = true)
    (hdev : opt.devsignprivate = none ∨ opt.devkeyblock = none) :
    sign_bios_at_end opt st img = ([SErr.DevKeysRequired], img) := by
  unfold sign_bios_at_end
  rw [if_pos hv, if_pos hd]
  rcases hdev with h | h
  · rw [h]
  · rw [h]
    cases opt.devsignprivate <;> rfl

/-- C1: when the post-shrink FW_MAIN slices differ and the caller gave
no developer private key or no developer keyblock, signing the BIOS
fails with the DevKeysRequired error and the image is returned
byte-identical. -/
theorem C1_devkeys_required (parse : ParseFn) (opt : Options) (lay : Layout)
    (img : Image)
    (hv : allValid (traverseBios parse opt lay img).2.1 = true)
    (hd : divergent img (traverseBios parse opt lay img).2.1 = true)
    (hdev : opt.devsignprivate = none ∨ opt.devkeyblock = none) :
    SErr.DevKeysRequired ∈ (ft_sign_bios parse opt lay img).1 ∧
    (ft_sign_bios parse opt lay img).2.1 = img := by
  have hend := sign_bios_at_end_nodev
    { opt with flags := (traverseBios parse opt lay img).2.2 }
    (traverseBios parse opt lay img).2.1 img hv hd hdev
  constructor
  · simp only [ft_sign_bios]
    rw [hend]
    simp
  · simp only [ft_sign_bios]
    rw [hend]

theorem C1_devkeys_required_witness :
    SErr.DevKeysRequired ∈ (ft_sign_bios parseNoneFn optPlain layAB imgDiff).1 ∧
    (ft_sign_bios parseNoneFn optPlain layAB imgDiff).2.1 = imgDiff :=
  C1_devkeys_required parseNoneFn optPlain layAB imgDiff (by decide) (by decide)
    (Or.inl rfl)

/-- C2: when an existing vblock parses and declares body size N, the
FW_MAIN area is shrunk to N if N fits, the new body signature covers
exactly the first N bytes of the FW_MAIN region and the new preamble
declares data_size N; when N exceeds the FW_MAIN area length the
handler fails with the FwLarger error and changes nothing. -/
theorem C2_body_length_shrink (parse : ParseFn) (isA : Bool)
    (vbuf : List Byte) (st : SignState) (fsp : Bool) (fl : Nat)
    (ov : OldVblock) (hp : parse vbuf = some ov) :
    (ov.fw_size ≤ (fwAreaOf isA st).len →
      (fmap_fw_preamble parse isA vbuf st fsp fl).1 = [] ∧
      (fwAreaOf isA (fmap_fw_preamble parse isA vbuf st fsp fl).2.1).len
        = ov.fw_size ∧
      ∀ (img : Image) (key : PrivKey) (opt : Options),
        (fwAreaOf isA st).off + ov.fw_size ≤ img.length →
        newBodySig img
            (fwAreaOf isA (fmap_fw_preamble parse isA vbuf st fsp fl).2.1) key
          = CalculateSignature
              ((img.drop (fwAreaOf isA st).off).take ov.fw_size) key ∧
        (newFwPreamble img
            (fwAreaOf isA (fmap_fw_preamble parse isA vbuf st fsp fl).2.1)
            key opt).body_signature.data_size = ov.fw_size) ∧
    ((fwAreaOf isA st).len < ov.fw_size →
      fmap_fw_preamble parse isA vbuf st fsp fl
        = ([SErr.FwLarger isA], st,
           if isA && !fsp then ov.flags else fl)) := by
  by_cases hle : ov.fw_size ≤ (fwAreaOf isA st).len
  · have heq : fmap_fw_preamble parse isA vbuf st fsp fl
        = ([], markVblockValid isA (setFwLen isA ov.fw_size st),
           if isA && !fsp then ov.flags else fl) := by
      simp only [fmap_fw_preamble, hp]
      rw [if_neg (by omega)]
    have hfw : fwAreaOf isA (markVblockValid isA (setFwLen isA ov.fw_size st))
        = { fwAreaOf isA st with len := ov.fw_size } := by
      rw [fwAreaOf_markVblockValid, fwAreaOf_setFwLen]
    constructor
    · intro _
      rw [heq]
      refine ⟨rfl, by rw [hfw], ?_⟩
      intro img key opt hlen
      rw [hfw]
      refine ⟨rfl, ?_⟩
      show (CalculateSignature
          (imgSlice img (fwAreaOf isA st).off ov.fw_size) key).data_size
        = ov.fw_size
      simp only [CalculateSignature]
      rw [length_imgSlice]
      omega
    · intro hlt
      omega
  · constructor
    · intro hle2
      omega
    · intro hlt
      simp only [fmap_fw_preamble, hp]
      rw [if_pos hlt]

theorem C2_body_length_shrink_witness :
    (fmap_fw_preamble parseKB77 true [7, 7] stC2 false 0).1 = [] ∧
    (fwAreaOf true (fmap_fw_preamble parseKB77 true [7, 7] stC2 false 0).2.1).len
      = 2 ∧
    newBodySig imgC2
        (fwAreaOf true (fmap_fw_preamble parseKB77 true [7, 7] stC2 false 0).2.1)
        ⟨0⟩
      = CalculateSignature ((imgC2.drop 0).take 2) ⟨0⟩ ∧
    (newFwPreamble imgC2
        (fwAreaOf true (fmap_fw_preamble parseKB77 true [7, 7] stC2 false 0).2.1)
        ⟨0⟩ optPlain).body_signature.data_size = 2 ∧
    fmap_fw_preamble parseKB77 true [7, 7]
        ⟨AreaSt.init, ⟨0, 1, true⟩, AreaSt.init, ⟨4, 4, false⟩, AreaSt.init⟩
        false 0
      = ([SErr.FwLarger true],
         ⟨AreaSt.init, ⟨0, 1, true⟩, AreaSt.init, ⟨4, 4, false⟩, AreaSt.init⟩,
         5) := by
  have h := (C2_body_length_shrink parseKB77 true [7, 7] stC2 false 0
    ⟨1, 2, 5⟩ (by decide)).1 (by decide)
  have h2 := h.2.2 imgC2 ⟨0⟩ optPlain (by decide)
  have h3 := (C2_body_length_shrink parseKB77 true [7, 7]
    ⟨AreaSt.init, ⟨0, 1, true⟩, AreaSt.init, ⟨4, 4, false⟩, AreaSt.init⟩
    false 0 ⟨1, 2, 5⟩ (by decide)).2 (by decide)
  exact ⟨h.1, h.2.1, h2.1, h2.2, h3⟩

/-- C4: slot B is always signed with the normal identity; slot A is
signed with the developer identity exactly when the FW_MAIN slices
diverge, and with the normal identity when they agree. -/
theorem C4_slot_identities (opt : Options) (st : SignState) (img : Image)
    (hv : allValid st = true) :
    (divergent img st = true →
      ∀ (dpriv : PrivKey) (dkb : KeyBlockFile),
        opt.devsignprivate = some dpriv → opt.devkeyblock = some dkb →
        sign_bios_at_end opt st img
          = ([], write_new_preamble
                   (write_new_preamble img st.vblock_a st.fw_main_a dpriv dkb opt)
                   st.vblock_b st.fw_main_b opt.signprivate opt.keyblock opt)) ∧
    (divergent img st = false →
      sign_bios_at_end opt st img
        = ([], write_new_preamble
                 (write_new_preamble img st.vblock_a st.fw_main_a
                    opt.signprivate opt.keyblock opt)
                 st.vblock_b st.fw_main_b opt.signprivate opt.keyblock opt)) := by
  constructor
  · intro hd dpriv dkb h1 h2
    unfold sign_bios_at_end
    rw [if_pos hv, if_pos hd, h1, h2]
  · intro hd
    unfold sign_bios_at_end
    rw [if_pos hv, if_neg (by simp [hd])]

theorem C4_slot_identities_witness :
    sign_bios_at_end optDev stW4 imgDiff
      = ([], write_new_preamble
               (write_new_preamble imgDiff stW4.vblock_a stW4.fw_main_a
                  ⟨5⟩ kbDev optDev)
               stW4.vblock_b stW4.fw_main_b
               optDev.signprivate optDev.keyblock optDev) :=
  (C4_slot_identities optDev stW4 imgDiff (by decide)).1 (by decide)
    ⟨5⟩ kbDev rfl rfl

/-- C8: the write trace of sign_bios_at_end is faithful to the image it
produces, and every write into VBLOCK_A comes before every write into
VBLOCK_B: the trace is its slot A events followed by its slot B
events. -/
theorem C8_vblock_write_order (opt : Options) (st : SignState) (img : Image) :
    applyEvents img (sign_bios_at_end_events opt st img)
      = (sign_bios_at_end opt st img).2 ∧
    sign_bios_at_end_events opt st img
      = (sign_bios_at_end_events opt st img).filter
          (fun e => decide (e.slot = Slot.A))
        ++ (sign_bios_at_end_events opt st img).filter
          (fun e => decide (e.slot = Slot.B)) := by
  unfold sign_bios_at_end_events sign_bios_at_end
  by_cases hv : allValid st
  · rw [if_pos hv, if_pos hv]
    by_cases hd : divergent img st
    · rw [if_pos hd, if_pos hd]
      cases h1 : opt.devsignprivate with
      | none => exact ⟨rfl, rfl⟩
      | some dpriv =>
        cases h2 : opt.devkeyblock with
        | none => exact ⟨rfl, rfl⟩
        | some dkb =>
          refine ⟨?_, rfl⟩
          dsimp only
          rw [applyEvents_append]
          rfl
    · rw [if_neg hd, if_neg hd]
      refine ⟨?_, rfl⟩
      dsimp only
      rw [applyEvents_append]
      rfl
  · rw [if_neg hv, if_neg hv]
    exact ⟨rfl, rfl⟩

theorem fmap_fw_preamble_flags_isB (parse : ParseFn) (vbuf : List Byte)
    (st : SignState) (fsp : Bool) (fl : Nat) :
    (fmap_fw_preamble parse false vbuf st fsp fl).2.2 = fl := by
  unfold fmap_fw_preamble
  cases hp : parse vbuf with
  | none => rfl
  | some ov =>
    dsimp only
    split <;> simp

theorem fmap_fw_preamble_flags_spec (parse : ParseFn) (isA : Bool)
    (vbuf : List Byte) (st : SignState) (fl : Nat) :
    (fmap_fw_preamble parse isA vbuf st true fl).2.2 = fl := by
  unfold fmap_fw_preamble
  cases hp : parse vbuf with
  | none => rfl
  | some ov =>
    dsimp only
    split <;> simp

theorem fmap_fw_preamble_flags_isA_some (parse : ParseFn) (vbuf : List Byte)
    (st : SignState) (fl : Nat) (ov : OldVblock) (hp : parse vbuf = some ov) :
    (fmap_fw_preamble parse true vbuf st false fl).2.2 = ov.flags := by
  unfold fmap_fw_preamble
  rw [hp]
  dsimp only
  split <;> simp

/-- C5 (amended): when --flags is given the newly written preambles use
the CLI value; when it is not given, the preserved flags come from the
old VBLOCK_A preamble alone, whenever that one parses.  An old VBLOCK_B
preamble never contributes its flags. -/
theorem C5_flags_amended (parse : ParseFn) (opt : Options) (lay : Layout)
    (img : Image) :
    (opt.flags_specified = true →
      (traverseBios parse opt lay img).2.2 = opt.flags) ∧
    (opt.flags_specified = false →
      ∀ (o s : Nat) (ov : OldVblock),
        clampOf img.length lay.vblock_a = some (o, s) →
        parse (imgSlice img o s) = some ov →
        (traverseBios parse opt lay img).2.2 = ov.flags) ∧
    ((ft_sign_bios parse opt lay img).2.2).flags
      = (traverseBios parse opt lay img).2.2 := by
  refine ⟨?_, ?_, rfl⟩
  · intro h
    unfold traverseBios
    dsimp only
    rw [h]
    cases h4 : clampOf img.length lay.vblock_a with
    | none =>
      cases h5 : clampOf img.length lay.vblock_b with
      | none => rfl
      | some p =>
        obtain ⟨o, s⟩ := p
        exact fmap_fw_preamble_flags_spec parse false (imgSlice img o s) _ _
    | some p =>
      obtain ⟨o, s⟩ := p
      cases h5 : clampOf img.length lay.vblock_b with
      | none =>
        exact fmap_fw_preamble_flags_spec parse true (imgSlice img o s) _ _
      | some q =>
        obtain ⟨o2, s2⟩ := q
        rw [fmap_fw_preamble_flags_spec parse false (imgSlice img o2 s2) _ _]
        exact fmap_fw_preamble_flags_spec parse true (imgSlice img o s) _ _
  · intro h o s ov hcl hp
    unfold traverseBios
    dsimp only
    rw [h, hcl]
    cases h5 : clampOf img.length lay.vblock_b with
    | none =>
      exact fmap_fw_preamble_flags_isA_some parse (imgSlice img o s) _ _ ov hp
    | some q =>
      obtain ⟨o2, s2⟩ := q
      rw [fmap_fw_preamble_flags_isB parse (imgSlice img o2 s2) _ _ _]
      exact fmap_fw_preamble_flags_isA_some parse (imgSlice img o s) _ _ ov hp

theorem C5_flags_amended_witness :
    (traverseBios parseKB77 optTiny layW5 imgW5).2.2 = 5 :=
  (C5_flags_amended parseKB77 optTiny layW5 imgW5).2.1 rfl 6 2 ⟨1, 2, 5⟩
    (by decide) (by decide)

/-- C5 (counterexample): with --flags absent, an image whose VBLOCK_B
vblock parses with old preamble flags 5 while VBLOCK_A does not parse is
signed successfully, yet both new preambles carry flags 0: the old
parsed preamble flags are not preserved.  Byte 9 of the output is the
version field of the new slot B preamble and byte 10 is its flags
field. -/
theorem C5_counterexample :
    optTiny.flags_specified = false ∧
    parseKB77 (imgSlice imgC5 8 2) = some ⟨1, 2, 5⟩ ∧
    (ft_sign_bios parseKB77 optTiny layC5 imgC5).1 = [] ∧
    ((ft_sign_bios parseKB77 optTiny layC5 imgC5).2.2).flags = 0 ∧
    ((ft_sign_bios parseKB77 optTiny layC5 imgC5).2.1).getD 9 0 = 1 ∧
    ((ft_sign_bios parseKB77 optTiny layC5 imgC5).2.1).getD 10 0 = 0 ∧
    (0 : Nat) ≠ 5 := by
  decide

theorem write_new_preamble_getD_outside (im : Image) (vb fw : AreaSt)
    (key : PrivKey) (kb : KeyBlockFile) (o : Options) (i : Nat)
    (h : i < vb.off ∨ vb.off + kb.bytes.length + 5 ≤ i) :
    (write_new_preamble im vb fw key kb o).getD i 0 = im.getD i 0 := by
  unfold write_new_preamble
  rw [getD_writeBytes_outside _ _ _ _
        (by rw [length_preambleBytes_newFwPreamble]; omega),
      getD_writeBytes_outside _ _ _ _ (by omega)]

/-- C3 (amended): an in-place BIOS sign can only change bytes inside the
keyblock-plus-preamble span written at the start of each vblock area;
every position before a vblock area start, or at or past its start plus
the written keyblock length plus the (five byte, in this model) preamble
length, is byte-equal to the input.  When those spans fit inside the
vblock areas this gives the original claim; the spans are not clipped to
the area lengths, because the two memcpy calls are not. -/
theorem C3_frame_amended (parse : ParseFn) (opt : Options) (lay : Layout)
    (img : Image) (i : Nat)
    (hA : i < (traverseBios parse opt lay img).2.1.vblock_a.off ∨
      ((traverseBios parse opt lay img).2.1.vblock_a.off
          + opt.keyblock.bytes.length + 5 ≤ i ∧
        ∀ dkb : KeyBlockFile, opt.devkeyblock = some dkb →
          (traverseBios parse opt lay img).2.1.vblock_a.off
            + dkb.bytes.length + 5 ≤ i))
    (hB : i < (traverseBios parse opt lay img).2.1.vblock_b.off ∨
      (traverseBios parse opt lay img).2.1.vblock_b.off
        + opt.keyblock.bytes.length + 5 ≤ i) :
    ((ft_sign_bios parse opt lay img).2.1).getD i 0 = img.getD i 0 := by
  have himg : (ft_sign_bios parse opt lay img).2.1
      = (sign_bios_at_end
          { opt with flags := (traverseBios parse opt lay img).2.2 }
          (traverseBios parse opt lay img).2.1 img).2 := rfl
  rw [himg]
  set st := (traverseBios parse opt lay img).2.1 with hst
  unfold sign_bios_at_end
  by_cases hv : allValid st
  · rw [if_pos hv]
    by_cases hd : divergent img st
    · rw [if_pos hd]
      cases h1 : opt.devsignprivate with
      | none => rfl
      | some dpriv =>
        cases h2 : opt.devkeyblock with
        | none => rfl
        | some dkb =>
          dsimp only
          rw [write_new_preamble_getD_outside _ _ _ _ _ _ _ hB,
              write_new_preamble_getD_outside _ _ _ _ _ _ _ ?_]
          rcases hA with h | ⟨hn, hdev⟩
          · exact Or.inl h
          · exact Or.inr (hdev dkb h2)
    · rw [if_neg hd]
      dsimp only
      rw [write_new_preamble_getD_outside _ _ _ _ _ _ _ hB,
          write_new_preamble_getD_outside _ _ _ _ _ _ _ ?_]
      rcases hA with h | ⟨hn, _⟩
      · exact Or.inl h
      · exact Or.inr hn
  · rw [if_neg hv]

theorem C3_frame_amended_witness :
    ((ft_sign_bios parseNoneFn optPlain layC3 imgZero16).2.1).getD 0 0
      = imgZero16.getD 0 0 :=
  C3_frame_amended parseNoneFn optPlain layC3 imgZero16 0
    (Or.inl (by decide)) (Or.inl (by decide))

/-- C3 (counterexample): signing an image whose VBLOCK_A area (4 bytes
at offset 4) is smaller than the normal keyblock (6 bytes), the keyblock
copy spills past the area: byte 8 lies outside the GBB, VBLOCK_A and
VBLOCK_B areas, yet the successful sign changes it from 0 to 9. -/
theorem C3_counterexample :
    inArea (traverseBios parseNoneFn optPlain layC3 imgZero16).2.1.gbb 8
      = false ∧
    inArea (traverseBios parseNoneFn optPlain layC3 imgZero16).2.1.vblock_a 8
      = false ∧
    inArea (traverseBios parseNoneFn optPlain layC3 imgZero16).2.1.vblock_b 8
      = false ∧
    (ft_sign_bios parseNoneFn optPlain layC3 imgZero16).1 = [] ∧
    ((ft_sign_bios parseNoneFn optPlain layC3 imgZero16).2.1).getD 8 0 = 9 ∧
    imgZero16.getD 8 0 = 0 := by
  decide
